import Mathlib

/-!
Shallow embedding of the Visitor-Pattern demo program (src/main.cpp).

Doubles are modelled as rationals (`ℚ`); the C++ conversion `int v = d`
(truncation toward zero) is modelled by `truncQ`.  Characters of a
`std::string` are modelled by their `unsigned char` codes (`Nat`, < 256).
A C++ exception is modelled by `Except String`: a handler that throws
returns `Except.error msg`; a try/catch block around a dispatch or a
`std::for_each` loop is modelled by `runCatch` / `forEachCaught`, which
stop at the first error and record the one printed message.
-/

/-- Element variant holding a single scalar (class `SingleElement`). -/
structure SingleElement where
  value : ℚ

/-- Element variant holding an ordered sequence of scalars (class `ArrayElement`). -/
structure ArrayElement where
  value : List ℚ

/-- Element variant holding a string, kept as the list of its character codes
(class `StringElement`). -/
structure StringElement where
  value : List Nat

def SingleElement.GetValue (e : SingleElement) : ℚ := e.value

def ArrayElement.GetValue (e : ArrayElement) : List ℚ := e.value

def StringElement.GetValue (e : StringElement) : List Nat := e.value

def SingleElement.SetValue (_e : SingleElement) (v : ℚ) : SingleElement := ⟨v⟩

def ArrayElement.SetValue (_e : ArrayElement) (v : List ℚ) : ArrayElement := ⟨v⟩

def StringElement.SetValue (_e : StringElement) (v : List Nat) : StringElement := ⟨v⟩

/-- The abstract element hierarchy (`AbstractElement`): a closed union of the
three variants. -/
inductive AbstractElement where
  | single (e : SingleElement)
  | array (e : ArrayElement)
  | str (e : StringElement)

/-- The C++ conversion `int v = x;` for a floating value `x`: truncation
toward zero. -/
def truncQ (x : ℚ) : ℤ := if 0 ≤ x then ⌊x⌋ else ⌈x⌉

/-- `std::isdigit` on an unsigned char code in the default locale. -/
def isdigit (c : Nat) : Bool := 48 ≤ c && c ≤ 57

/-- `SumVisitor::ProcessSingleElement`: `int v = element.GetValue(); value += v;` -/
def SumVisitor.ProcessSingleElement (element : SingleElement) (value : ℚ) : ℚ :=
  value + (truncQ element.GetValue : ℚ)

/-- `SumVisitor::ProcessArrayElement`: `value += std::accumulate(v, 0.0)`. -/
def SumVisitor.ProcessArrayElement (element : ArrayElement) (value : ℚ) : ℚ :=
  value + element.GetValue.foldl (fun sum x => sum + x) 0

/-- `SumVisitor::ProcessStringElement`: fold over the characters, adding
`ch - '0'` for digit characters. -/
def SumVisitor.ProcessStringElement (element : StringElement) (value : ℚ) : ℚ :=
  value + element.GetValue.foldl
    (fun sum ch => if isdigit ch then sum + ((ch : ℚ) - 48) else sum) 0

def SumVisitor.GetValue (value : ℚ) : ℚ := value

def SumVisitor.Reset (_value : ℚ) : ℚ := 0

/-- `MultiplyVisitor::ProcessSingleElement`: `int v = element.GetValue(); value *= v;` -/
def MultiplyVisitor.ProcessSingleElement (element : SingleElement) (value : ℚ) : ℚ :=
  value * (truncQ element.GetValue : ℚ)

/-- `MultiplyVisitor::ProcessArrayElement`: `value *= std::accumulate(v, 1.0, mul)`. -/
def MultiplyVisitor.ProcessArrayElement (element : ArrayElement) (value : ℚ) : ℚ :=
  value * element.GetValue.foldl (fun product x => product * x) 1

/-- `MultiplyVisitor::ProcessStringElement`: fold over the characters,
multiplying by `ch - '0'` for digit characters. -/
def MultiplyVisitor.ProcessStringElement (element : StringElement) (value : ℚ) : ℚ :=
  value * element.GetValue.foldl
    (fun product ch => if isdigit ch then product * ((ch : ℚ) - 48) else product) 1

def MultiplyVisitor.GetValue (value : ℚ) : ℚ := value

def MultiplyVisitor.Reset (_value : ℚ) : ℚ := 1

/-- `XORVisitor::ProcessSingleElement`: unconditionally throws. -/
def XORVisitor.ProcessSingleElement (_element : SingleElement) (_value : Nat) :
    Except String Nat :=
  Except.error "Error: Cannot apply XOR operation to SingleElement type"

/-- `XORVisitor::ProcessArrayElement`: unconditionally throws. -/
def XORVisitor.ProcessArrayElement (_element : ArrayElement) (_value : Nat) :
    Except String Nat :=
  Except.error "Error: Cannot apply XOR operation to ArrayElement type"

/-- The checksum local to `XORVisitor::ProcessStringElement`:
`std::accumulate(v, 0, xor)` over the character codes. -/
def xorChecksum (cs : List Nat) : Nat :=
  cs.foldl (fun checksum ch => checksum ^^^ ch) 0

/-- `XORVisitor::ProcessStringElement`: `value ^= checksum`.  Never throws. -/
def XORVisitor.ProcessStringElement (element : StringElement) (value : Nat) :
    Except String Nat :=
  Except.ok (value ^^^ xorChecksum element.GetValue)

def XORVisitor.GetValue (value : Nat) : Nat := value

def XORVisitor.Reset (_value : Nat) : Nat := 0

/-- The running state of one visitor object, tagged by which of the three
concrete visitor classes it is. -/
inductive VisitorState where
  | sum (value : ℚ)
  | mult (value : ℚ)
  | xorV (value : Nat)

/-- `SingleElement::Accept`: double dispatch to the visitor handler for the
scalar variant.  The handler receives the element by const reference and only
calls `GetValue`, so the element after the dispatch is the element before it. -/
def SingleElement.Accept (element : SingleElement) (v : VisitorState) :
    SingleElement × Except String VisitorState :=
  match v with
  | .sum s => (element, Except.ok (.sum (SumVisitor.ProcessSingleElement element s)))
  | .mult s => (element, Except.ok (.mult (MultiplyVisitor.ProcessSingleElement element s)))
  | .xorV s => (element, (XORVisitor.ProcessSingleElement element s).map .xorV)

/-- `ArrayElement::Accept`: double dispatch for the sequence variant. -/
def ArrayElement.Accept (element : ArrayElement) (v : VisitorState) :
    ArrayElement × Except String VisitorState :=
  match v with
  | .sum s => (element, Except.ok (.sum (SumVisitor.ProcessArrayElement element s)))
  | .mult s => (element, Except.ok (.mult (MultiplyVisitor.ProcessArrayElement element s)))
  | .xorV s => (element, (XORVisitor.ProcessArrayElement element s).map .xorV)

/-- `StringElement::Accept`: double dispatch for the text variant. -/
def StringElement.Accept (element : StringElement) (v : VisitorState) :
    StringElement × Except String VisitorState :=
  match v with
  | .sum s => (element, Except.ok (.sum (SumVisitor.ProcessStringElement element s)))
  | .mult s => (element, Except.ok (.mult (MultiplyVisitor.ProcessStringElement element s)))
  | .xorV s => (element, (XORVisitor.ProcessStringElement element s).map .xorV)

/-- Dispatch through the abstract base class, as the driver loops do. -/
def AbstractElement.Accept (elem : AbstractElement) (v : VisitorState) :
    AbstractElement × Except String VisitorState :=
  match elem with
  | .single e => ((e.Accept v).1 |> .single, (e.Accept v).2)
  | .array e => ((e.Accept v).1 |> .array, (e.Accept v).2)
  | .str e => ((e.Accept v).1 |> .str, (e.Accept v).2)

/-- Model of `try { <one dispatch> } catch (runtime_error e) { print e.what() }`:
on success the new state and no output, on a throw the fallback state and the
one printed message. -/
def runCatch {σ : Type} (act : Except String σ) (fallback : σ) : σ × List String :=
  match act with
  | .ok s => (s, [])
  | .error msg => (fallback, [msg])

/-- Model of `try { std::for_each(list, dispatch) } catch (runtime_error e)
{ print e.what() }`: elements are dispatched in order; the first throw leaves
the loop, the state stays as mutated so far, and exactly one message is
printed.  On no throw, the final state and no output. -/
def forEachCaught {α σ : Type} (step : α → σ → Except String σ) :
    List α → σ → σ × List String
  | [], s => (s, [])
  | e :: es, s =>
    match step e s with
    | .ok t => forEachCaught step es t
    | .error msg => (s, [msg])

/-- One line of console output: either a caught error message, a floating
result line, or a checksum line (printed through `static_cast<int>`). -/
inductive OutputLine where
  | errorLine (msg : String)
  | resultLine (label : String) (value : ℚ)
  | checksumLine (label : String) (value : ℤ)
deriving DecidableEq

def OutputLine.isError : OutputLine → Bool
  | .errorLine _ => true
  | _ => false

/-- The driver's nine scalar elements, from literal values 1.0 .. 9.0
(`single_element_list`). -/
def singleElementList : List SingleElement :=
  [⟨1⟩, ⟨2⟩, ⟨3⟩, ⟨4⟩, ⟨5⟩, ⟨6⟩, ⟨7⟩, ⟨8⟩, ⟨9⟩]

/-- The driver's four sequence elements (`array_element_list`). -/
def arrayElementList : List ArrayElement :=
  [⟨[1]⟩, ⟨[2, 3]⟩, ⟨[4, 5, 6]⟩, ⟨[7, 8, 9]⟩]

/-- The driver's text element, the character codes of
`Hello World 123456789` followed by the control character `\2`
(`string_element`). -/
def stringElement : StringElement :=
  ⟨[72, 101, 108, 108, 111, 32, 87, 111, 114, 108, 100, 32,
    49, 50, 51, 52, 53, 54, 55, 56, 57, 2]⟩

/-- One loop iteration of the driver's `for_each` over `SingleElement`s with
the sum visitor: `element.Accept(sum_visitor)` resolves to
`SumVisitor::ProcessSingleElement`, which cannot throw. -/
def sumSingleStep (e : SingleElement) (s : ℚ) : Except String ℚ :=
  Except.ok (SumVisitor.ProcessSingleElement e s)

def multSingleStep (e : SingleElement) (s : ℚ) : Except String ℚ :=
  Except.ok (MultiplyVisitor.ProcessSingleElement e s)

def xorSingleStep (e : SingleElement) (s : Nat) : Except String Nat :=
  XORVisitor.ProcessSingleElement e s

def sumArrayStep (e : ArrayElement) (s : ℚ) : Except String ℚ :=
  Except.ok (SumVisitor.ProcessArrayElement e s)

def multArrayStep (e : ArrayElement) (s : ℚ) : Except String ℚ :=
  Except.ok (MultiplyVisitor.ProcessArrayElement e s)

def xorArrayStep (e : ArrayElement) (s : Nat) : Except String Nat :=
  XORVisitor.ProcessArrayElement e s

/-- The program's `main`: builds the three collections, runs each batch with
each visitor inside its own try/catch block, prints the accumulators after
each batch, resets the visitors between batches, and returns 0.  Command-line
arguments are ignored.  The result is the ordered console output and the
process exit status. -/
def mainRun (_args : List String) : List OutputLine × ℤ :=
  let b1s := forEachCaught sumSingleStep singleElementList 0
  let b1m := forEachCaught multSingleStep singleElementList 1
  let b1x := forEachCaught xorSingleStep singleElementList 0
  let out1 :=
    (b1s.2 ++ b1m.2 ++ b1x.2).map OutputLine.errorLine ++
    [OutputLine.resultLine "Sum of SingleElement list" (SumVisitor.GetValue b1s.1),
     OutputLine.resultLine "Product of SingleElement list" (MultiplyVisitor.GetValue b1m.1),
     OutputLine.checksumLine "Checksum of SingleElement list" (XORVisitor.GetValue b1x.1 : ℤ)]
  let s1 := SumVisitor.Reset b1s.1
  let m1 := MultiplyVisitor.Reset b1m.1
  let x1 := XORVisitor.Reset b1x.1
  let b2s := forEachCaught sumArrayStep arrayElementList s1
  let b2m := forEachCaught multArrayStep arrayElementList m1
  let b2x := forEachCaught xorArrayStep arrayElementList x1
  let out2 :=
    (b2s.2 ++ b2m.2 ++ b2x.2).map OutputLine.errorLine ++
    [OutputLine.resultLine "Sum of ArrayElement list" (SumVisitor.GetValue b2s.1),
     OutputLine.resultLine "Product of ArrayElement list" (MultiplyVisitor.GetValue b2m.1),
     OutputLine.checksumLine "Checksum of ArrayElement list" (XORVisitor.GetValue b2x.1 : ℤ)]
  let s2 := SumVisitor.Reset b2s.1
  let m2 := MultiplyVisitor.Reset b2m.1
  let x2 := XORVisitor.Reset b2x.1
  let b3s := runCatch (Except.ok (SumVisitor.ProcessStringElement stringElement s2)) s2
  let b3m := runCatch (Except.ok (MultiplyVisitor.ProcessStringElement stringElement m2)) m2
  let b3x := runCatch (XORVisitor.ProcessStringElement stringElement x2) x2
  let out3 :=
    (b3s.2 ++ b3m.2 ++ b3x.2).map OutputLine.errorLine ++
    [OutputLine.resultLine "Sum of StringElement" (SumVisitor.GetValue b3s.1),
     OutputLine.resultLine "Product of StringElement" (MultiplyVisitor.GetValue b3m.1),
     OutputLine.checksumLine "Checksum of StringElement" (XORVisitor.GetValue b3x.1 : ℤ)]
  (out1 ++ out2 ++ out3, 0)

/-- Specification-side value of a digit character string: the digit values of
the ASCII digit characters, in order, as rationals. -/
def digitVals (cs : List Nat) : List ℚ :=
  (cs.filter isdigit).map (fun c => (c : ℚ) - 48)


lemma foldl_add_eq (xs : List ℚ) (a : ℚ) :
    xs.foldl (fun sum x => sum + x) a = a + xs.sum := by
  induction xs generalizing a with
  | nil => simp
  | cons y ys ih => simp only [List.foldl_cons, ih, List.sum_cons]; ring

lemma foldl_mul_eq (xs : List ℚ) (a : ℚ) :
    xs.foldl (fun product x => product * x) a = a * xs.prod := by
  induction xs generalizing a with
  | nil => simp
  | cons y ys ih => simp only [List.foldl_cons, ih, List.prod_cons]; ring

lemma foldl_digit_add (cs : List Nat) (a : ℚ) :
    cs.foldl (fun sum ch => if isdigit ch then sum + ((ch : ℚ) - 48) else sum) a =
      a + (digitVals cs).sum := by
  induction cs generalizing a with
  | nil => simp [digitVals]
  | cons c cs ih =>
    by_cases h : isdigit c <;>
      simp [List.foldl_cons, ih, digitVals, List.filter_cons, h] <;> ring

lemma foldl_digit_mul (cs : List Nat) (a : ℚ) :
    cs.foldl (fun product ch => if isdigit ch then product * ((ch : ℚ) - 48) else product) a =
      a * (digitVals cs).prod := by
  induction cs generalizing a with
  | nil => simp [digitVals]
  | cons c cs ih =>
    by_cases h : isdigit c <;>
      simp [List.foldl_cons, ih, digitVals, List.filter_cons, h] <;> ring

lemma xor_lt_256 {a b : Nat} (ha : a < 256) (hb : b < 256) : a ^^^ b < 256 := by
  have h : (256 : Nat) = 2 ^ 8 := by norm_num
  rw [h] at ha hb ⊢
  exact Nat.bitwise_lt ha hb

lemma foldl_xor_lt (cs : List Nat) (a : Nat) (ha : a < 256)
    (h : ∀ c ∈ cs, c < 256) :
    cs.foldl (fun checksum ch => checksum ^^^ ch) a < 256 := by
  induction cs generalizing a with
  | nil => simpa using ha
  | cons c cs ih =>
    simp only [List.foldl_cons]
    exact ih _ (xor_lt_256 ha (h c (by simp))) (fun d hd => h d (by simp [hd]))

/-- C1 counterexample: the driver wraps the whole `for_each` over the nine
scalar elements in one try/catch, so the XOR batch produces one caught error
line, not nine. -/
theorem c1_nine_error_lines_false :
    ¬ (forEachCaught xorSingleStep singleElementList 0).2.length = 9 := by
  decide

/-- C1 (amended): dispatching the XOR visitor over the batch of nine scalar
elements throws at the first element; the error is caught once, outside the
whole loop, so exactly one error line is printed, the remaining eight
elements are never dispatched, and the XOR accumulator remains 0. -/
theorem c1_single_batch_one_error_line :
    forEachCaught xorSingleStep singleElementList 0 =
      (0, ["Error: Cannot apply XOR operation to SingleElement type"]) := by
  decide

/-- C2: both scalar handlers fold in the truncation of the held value toward
zero — the sum handler adds it, the product handler multiplies by it — where
`truncQ x` has the integer magnitude `⌊|x|⌋` and the sign of `x`. -/
theorem c2_scalar_handlers_truncate (x s : ℚ) :
    SumVisitor.ProcessSingleElement ⟨x⟩ s = s + (truncQ x : ℚ) ∧
    MultiplyVisitor.ProcessSingleElement ⟨x⟩ s = s * (truncQ x : ℚ) ∧
    |truncQ x| = ⌊|x|⌋ ∧
    0 ≤ (truncQ x : ℚ) * x := by
  refine ⟨rfl, rfl, ?_, ?_⟩
  · unfold truncQ
    by_cases h : 0 ≤ x
    · rw [if_pos h, abs_of_nonneg (Int.floor_nonneg.mpr h), abs_of_nonneg h]
    · have hx : x < 0 := lt_of_not_ge h
      have hc : ⌈x⌉ ≤ 0 := Int.ceil_le.mpr (by exact_mod_cast hx.le)
      rw [if_neg h, abs_of_nonpos hc, abs_of_neg hx, Int.floor_neg]
  · unfold truncQ
    by_cases h : 0 ≤ x
    · rw [if_pos h]
      exact mul_nonneg (by exact_mod_cast Int.floor_nonneg.mpr h) h
    · have hx : x < 0 := lt_of_not_ge h
      have hc : ⌈x⌉ ≤ 0 := Int.ceil_le.mpr (by exact_mod_cast hx.le)
      rw [if_neg h]
      exact mul_nonneg_of_nonpos_of_nonpos (by exact_mod_cast hc) hx.le

/-- C3: dispatching the XOR visitor against a scalar or a sequence element
always signals an unsupported-operation error whose message names the correct
variant, and the caught dispatch leaves the XOR accumulator unchanged. -/
theorem c3_xor_unsupported_atomic (e : SingleElement) (a : ArrayElement) (s : Nat) :
    XORVisitor.ProcessSingleElement e s =
      Except.error "Error: Cannot apply XOR operation to SingleElement type" ∧
    XORVisitor.ProcessArrayElement a s =
      Except.error "Error: Cannot apply XOR operation to ArrayElement type" ∧
    runCatch (xorSingleStep e s) s =
      (s, ["Error: Cannot apply XOR operation to SingleElement type"]) ∧
    runCatch (xorArrayStep a s) s =
      (s, ["Error: Cannot apply XOR operation to ArrayElement type"]) :=
  ⟨rfl, rfl, rfl, rfl⟩

/-- C4: the sum visitor's sequence handler adds the exact arithmetic sum of
the sequence's values to the accumulator, with no truncation of the
individual values. -/
theorem c4_sum_sequence_exact (xs : List ℚ) (s : ℚ) :
    SumVisitor.ProcessArrayElement ⟨xs⟩ s = s + xs.sum := by
  show s + xs.foldl (fun sum x => sum + x) 0 = s + xs.sum
  rw [foldl_add_eq, zero_add]

/-- C5: the product visitor's sequence handler multiplies the accumulator by
the product of the sequence's values; an empty sequence leaves the
accumulator unchanged. -/
theorem c5_product_sequence (xs : List ℚ) (s : ℚ) :
    MultiplyVisitor.ProcessArrayElement ⟨xs⟩ s = s * xs.prod ∧
    MultiplyVisitor.ProcessArrayElement ⟨[]⟩ s = s := by
  constructor
  · show s * xs.foldl (fun product x => product * x) 1 = s * xs.prod
    rw [foldl_mul_eq, one_mul]
  · show s * [].foldl (fun product x => product * x) 1 = s
    simp

/-- C6: for every prior accumulated state, `Reset` restores each visitor's
identity value: 0 for the sum visitor, 1 for the product visitor, 0 for the
XOR visitor. -/
theorem c6_reset_restores_identity (a b : ℚ) (c : Nat) :
    SumVisitor.Reset a = 0 ∧ MultiplyVisitor.Reset b = 1 ∧ XORVisitor.Reset c = 0 :=
  ⟨rfl, rfl, rfl⟩

/-- C7: the sum visitor's text handler adds exactly the sum of the decimal
digit values of the ASCII digit characters of the string, and the product
visitor's text handler multiplies by exactly their product; non-digit
characters are filtered out, and the digit character `'0'` (code 48)
contributes the value 0 to `digitVals`. -/
theorem c7_text_digit_handlers (cs : List Nat) (s : ℚ) :
    SumVisitor.ProcessStringElement ⟨cs⟩ s = s + (digitVals cs).sum ∧
    MultiplyVisitor.ProcessStringElement ⟨cs⟩ s = s * (digitVals cs).prod ∧
    digitVals (48 :: cs) = 0 :: digitVals cs := by
  refine ⟨?_, ?_, ?_⟩
  · show s + cs.foldl (fun sum ch => if isdigit ch then sum + ((ch : ℚ) - 48) else sum) 0 =
      s + (digitVals cs).sum
    rw [foldl_digit_add, zero_add]
  · show s * cs.foldl
        (fun product ch => if isdigit ch then product * ((ch : ℚ) - 48) else product) 1 =
      s * (digitVals cs).prod
    rw [foldl_digit_mul, one_mul]
  · simp [digitVals, List.filter_cons, isdigit]

/-- C8: the XOR visitor's text handler never fails: it returns the running
accumulator XORed with the checksum of every character code of the string
(seeded from 0, all characters included); and when the character codes and
the prior accumulator are 8-bit values, so is the value `GetValue` returns. -/
theorem c8_xor_text_total_8bit (cs : List Nat) (s : Nat) :
    XORVisitor.ProcessStringElement ⟨cs⟩ s = Except.ok (s ^^^ xorChecksum cs) ∧
    ((∀ c ∈ cs, c < 256) → s < 256 → XORVisitor.GetValue (s ^^^ xorChecksum cs) < 256) := by
  refine ⟨rfl, fun h hs => ?_⟩
  exact xor_lt_256 hs (foldl_xor_lt cs 0 (by norm_num) h)

/-- C8 witness: the handler applied to the driver's text element from the
8-bit accumulator 0 succeeds and yields an 8-bit value. -/
theorem c8_xor_text_total_8bit_witness :
    XORVisitor.ProcessStringElement stringElement 0 =
      Except.ok (0 ^^^ xorChecksum stringElement.value) ∧
    XORVisitor.GetValue (0 ^^^ xorChecksum stringElement.value) < 256 := by
  have h := c8_xor_text_total_8bit stringElement.value 0
  exact ⟨h.1, h.2 (by decide) (by decide)⟩

/-- C9: the driver's entry point ignores its arguments and always exits with
status 0; the unsupported-operation errors raised by the XOR dispatches in
the batches are caught inside `main` and appear only as printed error lines
(exactly one per failing batch, two in total). -/
theorem c9_main_exits_zero (args : List String) :
    (mainRun args).2 = 0 ∧
    ((mainRun args).1.filter (fun l => l.isError)).length = 2 := by
  have h : mainRun args = mainRun [] := rfl
  rw [h]
  exact ⟨rfl, by decide⟩

/-- C10: dispatching any visitor to any element never modifies the element:
for each variant, the element component returned by `Accept` has the same
`GetValue` as before the dispatch, for every visitor state — including the
failing XOR dispatches — and abstract-element dispatch returns the element
itself unchanged. -/
theorem c10_accept_preserves_elements (e1 : SingleElement) (e2 : ArrayElement)
    (e3 : StringElement) (v : VisitorState) :
    (e1.Accept v).1.GetValue = e1.GetValue ∧
    (e2.Accept v).1.GetValue = e2.GetValue ∧
    (e3.Accept v).1.GetValue = e3.GetValue ∧
    (∀ elem : AbstractElement, (elem.Accept v).1 = elem) := by
  refine ⟨?_, ?_, ?_, ?_⟩ <;> first
    | (cases v <;> rfl)
    | (intro elem; cases elem <;> cases v <;> rfl)
